import Mathlib

/-!
Shallow embedding of the chip8 interpreter in src/main.rs.

Machine integers are modelled as Nat: u8 and u16 values are produced by the
code only through masking (x &&& 0xFF models a cast to u8), and usize
arithmetic in the source never overflows on the inputs considered here.
Rust Result values, together with the possibility of a panic (an
out-of-bounds Vec index or an explicit panic in the source), are modelled by
the three-valued Outcome type below.  The String error messages of the
source are represented by the constructors of Err, one per distinct message
site, with the formatted opcode word carried as a Nat.
-/

/-- Rust enum ProgramCounter from src/main.rs: the program-counter change
requested by an executed instruction. -/
inductive ProgramCounter where
  | Next : ProgramCounter
  | Jump : Nat → ProgramCounter
deriving DecidableEq

/-- Rust enum Register from src/main.rs.  The V constructor carries the
usize register index. -/
inductive Register where
  | V : Nat → Register
  | I : Register
  | Dt : Register
  | St : Register
  | Pc : Register
  | Sp : Register
deriving DecidableEq

/-- Rust enum Operand from src/main.rs: a 12-bit address, an 8-bit
immediate byte, or a register. -/
inductive Operand where
  | Addr (a : Nat)
  | Byte (b : Nat)
  | Register (r : Register)
deriving DecidableEq

/-- Rust enum Op from src/main.rs: the decoded instruction forms. -/
inductive Op where
  | CLS
  | RET
  | JP (dst : Nat)
  | JPREG (a b : Operand)
  | CALL (a : Operand)
  | SE (a b : Operand)
  | SNE (a b : Operand)
  | LD (dst src : Operand)
  | ADD (a b : Operand)
  | OR (a b : Operand)
  | AND (a b : Operand)
  | XOR (a b : Operand)
  | SUB (a b : Operand)
  | SHR (a b : Operand)
  | SUBN (a b : Operand)
  | SHL (a b : Operand)
  | RND (a b : Operand)
  | DRAW (x y n : Operand)
  | SKP (a : Operand)
  | SKNP (a : Operand)
  | SKIPKEY (a : Operand)
  | SKIPNOKEY (a : Operand)
  | WAITKEY (a : Operand)
  | SPRITECHAR (a : Operand)
  | MOVBCD (a : Operand)
  | READM (a : Operand)
  | WRITEM (a : Operand)
deriving DecidableEq

/-- The String error values produced by the source, one constructor per
distinct message site.  The unknownOp constructor models the formatted
message of the fallthrough arm of Cpu::read_instruction, which embeds the
offending opcode word. -/
inductive Err where
  | unableToReadByte
  | unableToReadWord
  | romSizeTooLarge
  | cantReadRegFromNibble
  | unknownOp (w : Nat)
deriving DecidableEq

/-- Result of running a fallible Rust function: a normal value, an Err
value (Rust Result::Err with a String message), or a panic (out-of-bounds
Vec indexing or an explicit panic in the source). -/
inductive Outcome (α : Type) where
  | ok (v : α)
  | err (e : Err)
  | panic
deriving DecidableEq

/-- Rust struct Mmu from src/main.rs: the 4096-byte ram and the 2048-byte
vram surface, both Vec of u8 whose length can change at runtime. -/
structure Mmu where
  ram : List Nat
  vram : List Nat
deriving DecidableEq

/-- Mmu::new: ram of 4096 zero bytes, vram of 2048 zero bytes. -/
def Mmu.new : Mmu :=
  { ram := List.replicate 4096 0, vram := List.replicate 2048 0 }

/-- Mmu::read_byte.  The source guard is index > self.ram.len() (strictly
greater): when index equals the length the guard passes and self.ram[index]
is an out-of-bounds index, which panics. -/
def Mmu.read_byte (m : Mmu) (index : Nat) : Outcome Nat :=
  if index > m.ram.length then Outcome.err Err.unableToReadByte
  else
    match m.ram[index]? with
    | some b => Outcome.ok b
    | none => Outcome.panic

/-- Mmu::read_word.  The source guard is index + 1 > self.ram.len(): when
index + 1 equals the length the guard passes and self.ram[index + 1] is an
out-of-bounds index, which panics.  The word is big endian:
(ram[index] as u16) << 8 plus ram[index + 1]. -/
def Mmu.read_word (m : Mmu) (index : Nat) : Outcome Nat :=
  if index + 1 > m.ram.length then Outcome.err Err.unableToReadWord
  else
    match m.ram[index]? with
    | none => Outcome.panic
    | some hi =>
      match m.ram[index + 1]? with
      | none => Outcome.panic
      | some lo => Outcome.ok ((hi <<< 8) + lo)

/-- The loop body of Mmu::load_rom: for (i, item) in rom.iter().enumerate()
the source calls self.ram.insert(i + 0x200, *item), Vec::insert, which
shifts the tail and grows the vector by one; it panics when the insertion
index exceeds the current length.  idx is i + 0x200. -/
def insert_all (ram : List Nat) (rom : List Nat) (idx : Nat) : Outcome (List Nat) :=
  match rom with
  | [] => Outcome.ok ram
  | b :: rest =>
    if idx ≤ ram.length then insert_all (ram.insertIdx idx b) rest (idx + 1)
    else Outcome.panic

/-- Mmu::load_rom: rejects rom images larger than 4096 bytes, then inserts
the rom bytes one by one starting at index 0x200 with Vec::insert. -/
def Mmu.load_rom (m : Mmu) (rom : List Nat) : Outcome Mmu :=
  if rom.length > 4096 then Outcome.err Err.romSizeTooLarge
  else
    match insert_all m.ram rom 0x200 with
    | Outcome.ok ram2 => Outcome.ok { m with ram := ram2 }
    | Outcome.err e => Outcome.err e
    | Outcome.panic => Outcome.panic

/-- Mmu::clear_vram calls Vec::clear, which removes every element and
leaves the vector empty (length 0). -/
def Mmu.clear_vram (m : Mmu) : Mmu :=
  { m with vram := [] }

/-- Rust struct Cpu from src/main.rs. -/
structure Cpu where
  mmu : Mmu
  v : List Nat
  i : Nat
  stack : List Nat
  pc : Nat
  sp : Nat
deriving DecidableEq

/-- Cpu::new. -/
def Cpu.new (mmu : Mmu) : Cpu :=
  { mmu := mmu
    v := List.replicate 16 0
    i := 0
    stack := List.replicate 16 0
    pc := 0x200
    sp := 0 }

/-- Cpu::reg_from_nibble.  The source match accepts 0..=9 and returns None
for every other value; its self receiver is unused and is dropped here. -/
def reg_from_nibble (op : Nat) : Option Register :=
  if op ≤ 9 then some (Register.V op) else none

/-- The match on the fetched word inside Cpu::read_instruction, as a
function of the word alone: apart from the fetch, the body of
read_instruction only consults the word (reg_from_nibble ignores self), so
the whole match is a pure function of op.  Guards appear in source order;
ok_or followed by the question-mark operator on reg_from_nibble becomes a
match whose none arm returns Err.cantReadRegFromNibble. -/
def decode (op : Nat) : Outcome Op :=
  let high_nib := (op >>> 12) &&& 0xFF
  if op = 0x00E0 then Outcome.ok Op.CLS
  else if op = 0x00EE then Outcome.ok Op.RET
  else if high_nib = 0x1 then Outcome.ok (Op.JP (op &&& 0x0FFF))
  else if high_nib = 0x2 then Outcome.ok (Op.CALL (Operand.Addr (op &&& 0x0FFF)))
  else if high_nib = 0x3 then
    match reg_from_nibble ((op >>> 8) &&& 0x0F) with
    | none => Outcome.err Err.cantReadRegFromNibble
    | some reg => Outcome.ok (Op.SE (Operand.Register reg) (Operand.Byte (op &&& 0xFF)))
  else if high_nib = 0x4 then
    match reg_from_nibble ((op >>> 8) &&& 0x0F) with
    | none => Outcome.err Err.cantReadRegFromNibble
    | some reg => Outcome.ok (Op.SNE (Operand.Register reg) (Operand.Byte (op &&& 0xFF)))
  else if high_nib = 0x5 then
    match reg_from_nibble ((op >>> 8) &&& 0x0F), reg_from_nibble ((op >>> 4) &&& 0xF) with
    | some reg_a, some reg_b =>
      Outcome.ok (Op.SE (Operand.Register reg_a) (Operand.Register reg_b))
    | _, _ => Outcome.err Err.cantReadRegFromNibble
  else if high_nib = 0x6 then
    match reg_from_nibble ((op >>> 8) &&& 0x0F) with
    | none => Outcome.err Err.cantReadRegFromNibble
    | some reg => Outcome.ok (Op.LD (Operand.Register reg) (Operand.Byte (op &&& 0xFF)))
  else if high_nib = 0x7 then
    match reg_from_nibble ((op >>> 8) &&& 0x0F) with
    | none => Outcome.err Err.cantReadRegFromNibble
    | some reg => Outcome.ok (Op.ADD (Operand.Register reg) (Operand.Byte (op &&& 0xFF)))
  else if op &&& 0xF00F = 0x8000 then
    match reg_from_nibble ((op >>> 8) &&& 0x0F), reg_from_nibble ((op >>> 4) &&& 0xF) with
    | some reg_a, some reg_b =>
      Outcome.ok (Op.LD (Operand.Register reg_a) (Operand.Register reg_b))
    | _, _ => Outcome.err Err.cantReadRegFromNibble
  else if op &&& 0xF00F = 0x8001 then
    match reg_from_nibble ((op >>> 8) &&& 0x0F), reg_from_nibble ((op >>> 4) &&& 0xF) with
    | some reg_a, some reg_b =>
      Outcome.ok (Op.OR (Operand.Register reg_a) (Operand.Register reg_b))
    | _, _ => Outcome.err Err.cantReadRegFromNibble
  else if op &&& 0xF00F = 0x8002 then
    match reg_from_nibble ((op >>> 8) &&& 0x0F), reg_from_nibble ((op >>> 4) &&& 0xF) with
    | some reg_a, some reg_b =>
      Outcome.ok (Op.AND (Operand.Register reg_a) (Operand.Register reg_b))
    | _, _ => Outcome.err Err.cantReadRegFromNibble
  else if op &&& 0xF00F = 0x8003 then
    match reg_from_nibble ((op >>> 8) &&& 0x0F), reg_from_nibble ((op >>> 4) &&& 0xF) with
    | some reg_a, some reg_b =>
      Outcome.ok (Op.XOR (Operand.Register reg_a) (Operand.Register reg_b))
    | _, _ => Outcome.err Err.cantReadRegFromNibble
  else if op &&& 0xF00F = 0x8004 then
    match reg_from_nibble ((op >>> 8) &&& 0x0F), reg_from_nibble ((op >>> 4) &&& 0xF) with
    | some reg_a, some reg_b =>
      Outcome.ok (Op.ADD (Operand.Register reg_a) (Operand.Register reg_b))
    | _, _ => Outcome.err Err.cantReadRegFromNibble
  else if op &&& 0xF00F = 0x8005 then
    match reg_from_nibble ((op >>> 8) &&& 0x0F), reg_from_nibble ((op >>> 4) &&& 0xF) with
    | some reg_a, some reg_b =>
      Outcome.ok (Op.SUB (Operand.Register reg_a) (Operand.Register reg_b))
    | _, _ => Outcome.err Err.cantReadRegFromNibble
  else if op &&& 0xF00F = 0x8006 then
    match reg_from_nibble ((op >>> 8) &&& 0x0F), reg_from_nibble ((op >>> 4) &&& 0xF) with
    | some reg_a, some reg_b =>
      Outcome.ok (Op.SHR (Operand.Register reg_a) (Operand.Register reg_b))
    | _, _ => Outcome.err Err.cantReadRegFromNibble
  else if op &&& 0xF00F = 0x8007 then
    match reg_from_nibble ((op >>> 8) &&& 0x0F), reg_from_nibble ((op >>> 4) &&& 0xF) with
    | some reg_a, some reg_b =>
      Outcome.ok (Op.SUBN (Operand.Register reg_a) (Operand.Register reg_b))
    | _, _ => Outcome.err Err.cantReadRegFromNibble
  else if op &&& 0xF00F = 0x800E then
    match reg_from_nibble ((op >>> 8) &&& 0x0F), reg_from_nibble ((op >>> 4) &&& 0xF) with
    | some reg_a, some reg_b =>
      Outcome.ok (Op.SHL (Operand.Register reg_a) (Operand.Register reg_b))
    | _, _ => Outcome.err Err.cantReadRegFromNibble
  else if high_nib = 0x9 then
    match reg_from_nibble ((op >>> 8) &&& 0x0F), reg_from_nibble ((op >>> 4) &&& 0xF) with
    | some reg_a, some reg_b =>
      Outcome.ok (Op.SNE (Operand.Register reg_a) (Operand.Register reg_b))
    | _, _ => Outcome.err Err.cantReadRegFromNibble
  else if high_nib = 0xA then
    Outcome.ok (Op.LD (Operand.Register Register.I) (Operand.Addr (op &&& 0x0FFF)))
  else if high_nib = 0xB then
    Outcome.ok (Op.JPREG (Operand.Register (Register.V 0)) (Operand.Addr (op &&& 0x0FFF)))
  else if high_nib = 0xC then
    match reg_from_nibble ((op >>> 8) &&& 0x0F) with
    | none => Outcome.err Err.cantReadRegFromNibble
    | some reg =>
      Outcome.ok (Op.RND (Operand.Register reg) (Operand.Byte ((op &&& 0xFF) &&& 0x00FF)))
  else if high_nib = 0xD then
    match reg_from_nibble ((op >>> 8) &&& 0x0F), reg_from_nibble ((op >>> 4) &&& 0xF) with
    | some reg_a, some reg_b =>
      Outcome.ok (Op.DRAW (Operand.Register reg_a) (Operand.Register reg_b)
        (Operand.Byte ((((op >>> 4) &&& 0xF) &&& 0x00FF) &&& 0xFF)))
    | _, _ => Outcome.err Err.cantReadRegFromNibble
  else if op &&& 0xF0FF = 0xE09E then
    match reg_from_nibble ((op >>> 8) &&& 0x0F) with
    | none => Outcome.err Err.cantReadRegFromNibble
    | some reg => Outcome.ok (Op.SKIPKEY (Operand.Register reg))
  else if op &&& 0xF0FF = 0xE0A1 then
    match reg_from_nibble ((op >>> 8) &&& 0x0F) with
    | none => Outcome.err Err.cantReadRegFromNibble
    | some reg => Outcome.ok (Op.SKIPNOKEY (Operand.Register reg))
  else if op &&& 0xF0FF = 0xF007 then
    match reg_from_nibble ((op >>> 8) &&& 0x0F) with
    | none => Outcome.err Err.cantReadRegFromNibble
    | some reg =>
      Outcome.ok (Op.LD (Operand.Register reg) (Operand.Register Register.Dt))
  else if op &&& 0xF0FF = 0xF00A then
    match reg_from_nibble ((op >>> 8) &&& 0x0F) with
    | none => Outcome.err Err.cantReadRegFromNibble
    | some reg => Outcome.ok (Op.WAITKEY (Operand.Register reg))
  else if op &&& 0xF0FF = 0xF015 then
    match reg_from_nibble ((op >>> 8) &&& 0x0F) with
    | none => Outcome.err Err.cantReadRegFromNibble
    | some reg =>
      Outcome.ok (Op.LD (Operand.Register Register.Dt) (Operand.Register reg))
  else if op &&& 0xF0FF = 0xF018 then
    match reg_from_nibble ((op >>> 8) &&& 0x0F) with
    | none => Outcome.err Err.cantReadRegFromNibble
    | some reg =>
      Outcome.ok (Op.LD (Operand.Register Register.St) (Operand.Register reg))
  else if op &&& 0xF0FF = 0xF01E then
    match reg_from_nibble ((op >>> 8) &&& 0x0F) with
    | none => Outcome.err Err.cantReadRegFromNibble
    | some reg =>
      Outcome.ok (Op.ADD (Operand.Register Register.I) (Operand.Register reg))
  else if op &&& 0xF0FF = 0xF029 then
    match reg_from_nibble ((op >>> 8) &&& 0x0F) with
    | none => Outcome.err Err.cantReadRegFromNibble
    | some reg => Outcome.ok (Op.SPRITECHAR (Operand.Register reg))
  else if op &&& 0xF0FF = 0xF033 then
    match reg_from_nibble ((op >>> 8) &&& 0x0F) with
    | none => Outcome.err Err.cantReadRegFromNibble
    | some reg => Outcome.ok (Op.MOVBCD (Operand.Register reg))
  else if op &&& 0xF0FF = 0xF055 then
    match reg_from_nibble ((op >>> 8) &&& 0x0F) with
    | none => Outcome.err Err.cantReadRegFromNibble
    | some reg => Outcome.ok (Op.READM (Operand.Register reg))
  else if op &&& 0xF0FF = 0xF065 then
    match reg_from_nibble ((op >>> 8) &&& 0x0F) with
    | none => Outcome.err Err.cantReadRegFromNibble
    | some reg => Outcome.ok (Op.WRITEM (Operand.Register reg))
  else Outcome.err (Err.unknownOp op)

/-- The disjunction of the guards of the match inside Cpu::read_instruction,
in source order: true exactly when the word matches one of the documented
instruction patterns, so the fallthrough arm fires exactly when this is
false. -/
def documented (op : Nat) : Bool :=
  let high_nib := (op >>> 12) &&& 0xFF
  op == 0x00E0 || op == 0x00EE || high_nib == 0x1 || high_nib == 0x2 ||
  high_nib == 0x3 || high_nib == 0x4 || high_nib == 0x5 || high_nib == 0x6 ||
  high_nib == 0x7 ||
  (op &&& 0xF00F) == 0x8000 || (op &&& 0xF00F) == 0x8001 ||
  (op &&& 0xF00F) == 0x8002 || (op &&& 0xF00F) == 0x8003 ||
  (op &&& 0xF00F) == 0x8004 || (op &&& 0xF00F) == 0x8005 ||
  (op &&& 0xF00F) == 0x8006 || (op &&& 0xF00F) == 0x8007 ||
  (op &&& 0xF00F) == 0x800E ||
  high_nib == 0x9 || high_nib == 0xA || high_nib == 0xB || high_nib == 0xC ||
  high_nib == 0xD ||
  (op &&& 0xF0FF) == 0xE09E || (op &&& 0xF0FF) == 0xE0A1 ||
  (op &&& 0xF0FF) == 0xF007 || (op &&& 0xF0FF) == 0xF00A ||
  (op &&& 0xF0FF) == 0xF015 || (op &&& 0xF0FF) == 0xF018 ||
  (op &&& 0xF0FF) == 0xF01E || (op &&& 0xF0FF) == 0xF029 ||
  (op &&& 0xF0FF) == 0xF033 || (op &&& 0xF0FF) == 0xF055 ||
  (op &&& 0xF0FF) == 0xF065

/-- Cpu::read_instruction: fetch the word at pc with read_word (the
question-mark operator propagates its error), then run the decode match on
the word.  The source takes a mutable receiver but never writes to it, so
the embedding returns the resulting Cpu alongside the decode result. -/
def Cpu.read_instruction (c : Cpu) : Outcome Op × Cpu :=
  match c.mmu.read_word c.pc with
  | Outcome.ok w => (decode w, c)
  | Outcome.err e => (Outcome.err e, c)
  | Outcome.panic => (Outcome.panic, c)

/-- Cpu::clear_vram: clears the vram through the Mmu and asks for the next
program counter. -/
def Cpu.clear_vram (c : Cpu) : ProgramCounter × Cpu :=
  (ProgramCounter.Next, { c with mmu := c.mmu.clear_vram })

/-- Cpu::execute_instruction.  Only the CLS, JP and LD arms of the source
match are implemented; every other arm of the match is commented out in the
source and falls through to the default arm, which requests
ProgramCounter::Next.  The LD arm panics when the destination register of a
byte load is not a V register, when the V index is out of bounds for the
register file, or when the destination of an address load is not I. -/
def Cpu.execute_instruction (c : Cpu) (instruction : Op) : Outcome Cpu :=
  let pc_change : Outcome (ProgramCounter × Cpu) :=
    match instruction with
    | Op.CLS => Outcome.ok c.clear_vram
    | Op.JP dst => Outcome.ok (ProgramCounter.Jump dst, c)
    | Op.LD dst src =>
      match dst with
      | Operand.Register dreg =>
        let afterByte : Outcome Cpu :=
          match src with
          | Operand.Byte srcb =>
            match dreg with
            | Register.V d =>
              if d < c.v.length then Outcome.ok { c with v := c.v.set d srcb }
              else Outcome.panic
            | _ => Outcome.panic
          | _ => Outcome.ok c
        match afterByte with
        | Outcome.ok c1 =>
          match src with
          | Operand.Addr srca =>
            match dreg with
            | Register.I => Outcome.ok (ProgramCounter.Next, { c1 with i := srca })
            | _ => Outcome.panic
          | _ => Outcome.ok (ProgramCounter.Next, c1)
        | Outcome.err e => Outcome.err e
        | Outcome.panic => Outcome.panic
      | _ => Outcome.ok (ProgramCounter.Next, c)
    | _ => Outcome.ok (ProgramCounter.Next, c)
  match pc_change with
  | Outcome.ok (ProgramCounter.Next, c2) => Outcome.ok { c2 with pc := c2.pc + 2 }
  | Outcome.ok (ProgramCounter.Jump addr, c2) => Outcome.ok { c2 with pc := addr }
  | Outcome.err e => Outcome.err e
  | Outcome.panic => Outcome.panic

/-- Concrete Cpu state used for the arithmetic claim: V0 = 0xFF, V1 = 0x01,
everything else zeroed, pc at the reset address. -/
def cpu_arith : Cpu :=
  { mmu := { ram := [], vram := [] }
    v := [0xFF, 0x01, 0, 0, 0, 0, 0, 0, 0, 0, 0, 0, 0, 0, 0, 0]
    i := 0
    stack := []
    pc := 0x200
    sp := 0 }

/-- Concrete Cpu state used for the skip claim: V0 = 5, everything else
zeroed. -/
def cpu_skip : Cpu :=
  { mmu := { ram := [], vram := [] }
    v := [5, 0, 0, 0, 0, 0, 0, 0, 0, 0, 0, 0, 0, 0, 0, 0]
    i := 0
    stack := []
    pc := 0x200
    sp := 0 }

/-- Concrete Cpu state used for the flow claim: empty call stack, sp = 0. -/
def cpu_flow : Cpu :=
  { mmu := { ram := [], vram := [] }
    v := List.replicate 16 0
    i := 0
    stack := []
    pc := 0x200
    sp := 0 }

/-- Concrete Cpu whose ram holds the word 0x1234 at pc = 0. -/
def cpu_word_a : Cpu :=
  { mmu := { ram := [0x12, 0x34], vram := [] }
    v := List.replicate 16 0
    i := 0
    stack := []
    pc := 0
    sp := 0 }

/-- A second concrete Cpu holding the same word 0x1234 at pc = 1 with
otherwise different state. -/
def cpu_word_b : Cpu :=
  { mmu := { ram := [9, 0x12, 0x34, 7], vram := [1] }
    v := List.replicate 16 3
    i := 5
    stack := [2]
    pc := 1
    sp := 4 }

set_option maxHeartbeats 4000000 in
/-- Characterisation of the fallthrough arm of the decode match: the
unknown-opcode error appears exactly when no documented pattern matches,
and decode never panics. -/
theorem decode_spec (op : Nat) :
    (decode op = Outcome.err (Err.unknownOp op) ↔ documented op = false)
    ∧ decode op ≠ Outcome.panic := by
  simp only [decode]
  by_cases h1 : op = 0x00E0
  · rw [if_pos h1]
    cases hra : reg_from_nibble ((op >>> 8) &&& 0x0F) <;>
      cases hrb : reg_from_nibble ((op >>> 4) &&& 0xF) <;>
      simp [documented, h1]
  rw [if_neg h1]
  by_cases h2 : op = 0x00EE
  · rw [if_pos h2]
    cases hra : reg_from_nibble ((op >>> 8) &&& 0x0F) <;>
      cases hrb : reg_from_nibble ((op >>> 4) &&& 0xF) <;>
      simp [documented, h2]
  rw [if_neg h2]
  by_cases h3 : (op >>> 12) &&& 0xFF = 0x1
  · rw [if_pos h3]
    cases hra : reg_from_nibble ((op >>> 8) &&& 0x0F) <;>
      cases hrb : reg_from_nibble ((op >>> 4) &&& 0xF) <;>
      simp [documented, h3]
  rw [if_neg h3]
  by_cases h4 : (op >>> 12) &&& 0xFF = 0x2
  · rw [if_pos h4]
    cases hra : reg_from_nibble ((op >>> 8) &&& 0x0F) <;>
      cases hrb : reg_from_nibble ((op >>> 4) &&& 0xF) <;>
      simp [documented, h4]
  rw [if_neg h4]
  by_cases h5 : (op >>> 12) &&& 0xFF = 0x3
  · rw [if_pos h5]
    cases hra : reg_from_nibble ((op >>> 8) &&& 0x0F) <;>
      cases hrb : reg_from_nibble ((op >>> 4) &&& 0xF) <;>
      simp [documented, h5]
  rw [if_neg h5]
  by_cases h6 : (op >>> 12) &&& 0xFF = 0x4
  · rw [if_pos h6]
    cases hra : reg_from_nibble ((op >>> 8) &&& 0x0F) <;>
      cases hrb : reg_from_nibble ((op >>> 4) &&& 0xF) <;>
      simp [documented, h6]
  rw [if_neg h6]
  by_cases h7 : (op >>> 12) &&& 0xFF = 0x5
  · rw [if_pos h7]
    cases hra : reg_from_nibble ((op >>> 8) &&& 0x0F) <;>
      cases hrb : reg_from_nibble ((op >>> 4) &&& 0xF) <;>
      simp [documented, h7]
  rw [if_neg h7]
  by_cases h8 : (op >>> 12) &&& 0xFF = 0x6
  · rw [if_pos h8]
    cases hra : reg_from_nibble ((op >>> 8) &&& 0x0F) <;>
      cases hrb : reg_from_nibble ((op >>> 4) &&& 0xF) <;>
      simp [documented, h8]
  rw [if_neg h8]
  by_cases h9 : (op >>> 12) &&& 0xFF = 0x7
  · rw [if_pos h9]
    cases hra : reg_from_nibble ((op >>> 8) &&& 0x0F) <;>
      cases hrb : reg_from_nibble ((op >>> 4) &&& 0xF) <;>
      simp [documented, h9]
  rw [if_neg h9]
  by_cases h10 : op &&& 0xF00F = 0x8000
  · rw [if_pos h10]
    cases hra : reg_from_nibble ((op >>> 8) &&& 0x0F) <;>
      cases hrb : reg_from_nibble ((op >>> 4) &&& 0xF) <;>
      simp [documented, h10]
  rw [if_neg h10]
  by_cases h11 : op &&& 0xF00F = 0x8001
  · rw [if_pos h11]
    cases hra : reg_from_nibble ((op >>> 8) &&& 0x0F) <;>
      cases hrb : reg_from_nibble ((op >>> 4) &&& 0xF) <;>
      simp [documented, h11]
  rw [if_neg h11]
  by_cases h12 : op &&& 0xF00F = 0x8002
  · rw [if_pos h12]
    cases hra : reg_from_nibble ((op >>> 8) &&& 0x0F) <;>
      cases hrb : reg_from_nibble ((op >>> 4) &&& 0xF) <;>
      simp [documented, h12]
  rw [if_neg h12]
  by_cases h13 : op &&& 0xF00F = 0x8003
  · rw [if_pos h13]
    cases hra : reg_from_nibble ((op >>> 8) &&& 0x0F) <;>
      cases hrb : reg_from_nibble ((op >>> 4) &&& 0xF) <;>
      simp [documented, h13]
  rw [if_neg h13]
  by_cases h14 : op &&& 0xF00F = 0x8004
  · rw [if_pos h14]
    cases hra : reg_from_nibble ((op >>> 8) &&& 0x0F) <;>
      cases hrb : reg_from_nibble ((op >>> 4) &&& 0xF) <;>
      simp [documented, h14]
  rw [if_neg h14]
  by_cases h15 : op &&& 0xF00F = 0x8005
  · rw [if_pos h15]
    cases hra : reg_from_nibble ((op >>> 8) &&& 0x0F) <;>
      cases hrb : reg_from_nibble ((op >>> 4) &&& 0xF) <;>
      simp [documented, h15]
  rw [if_neg h15]
  by_cases h16 : op &&& 0xF00F = 0x8006
  · rw [if_pos h16]
    cases hra : reg_from_nibble ((op >>> 8) &&& 0x0F) <;>
      cases hrb : reg_from_nibble ((op >>> 4) &&& 0xF) <;>
      simp [documented, h16]
  rw [if_neg h16]
  by_cases h17 : op &&& 0xF00F = 0x8007
  · rw [if_pos h17]
    cases hra : reg_from_nibble ((op >>> 8) &&& 0x0F) <;>
      cases hrb : reg_from_nibble ((op >>> 4) &&& 0xF) <;>
      simp [documented, h17]
  rw [if_neg h17]
  by_cases h18 : op &&& 0xF00F = 0x800E
  · rw [if_pos h18]
    cases hra : reg_from_nibble ((op >>> 8) &&& 0x0F) <;>
      cases hrb : reg_from_nibble ((op >>> 4) &&& 0xF) <;>
      simp [documented, h18]
  rw [if_neg h18]
  by_cases h19 : (op >>> 12) &&& 0xFF = 0x9
  · rw [if_pos h19]
    cases hra : reg_from_nibble ((op >>> 8) &&& 0x0F) <;>
      cases hrb : reg_from_nibble ((op >>> 4) &&& 0xF) <;>
      simp [documented, h19]
  rw [if_neg h19]
  by_cases h20 : (op >>> 12) &&& 0xFF = 0xA
  · rw [if_pos h20]
    cases hra : reg_from_nibble ((op >>> 8) &&& 0x0F) <;>
      cases hrb : reg_from_nibble ((op >>> 4) &&& 0xF) <;>
      simp [documented, h20]
  rw [if_neg h20]
  by_cases h21 : (op >>> 12) &&& 0xFF = 0xB
  · rw [if_pos h21]
    cases hra : reg_from_nibble ((op >>> 8) &&& 0x0F) <;>
      cases hrb : reg_from_nibble ((op >>> 4) &&& 0xF) <;>
      simp [documented, h21]
  rw [if_neg h21]
  by_cases h22 : (op >>> 12) &&& 0xFF = 0xC
  · rw [if_pos h22]
    cases hra : reg_from_nibble ((op >>> 8) &&& 0x0F) <;>
      cases hrb : reg_from_nibble ((op >>> 4) &&& 0xF) <;>
      simp [documented, h22]
  rw [if_neg h22]
  by_cases h23 : (op >>> 12) &&& 0xFF = 0xD
  · rw [if_pos h23]
    cases hra : reg_from_nibble ((op >>> 8) &&& 0x0F) <;>
      cases hrb : reg_from_nibble ((op >>> 4) &&& 0xF) <;>
      simp [documented, h23]
  rw [if_neg h23]
  by_cases h24 : op &&& 0xF0FF = 0xE09E
  · rw [if_pos h24]
    cases hra : reg_from_nibble ((op >>> 8) &&& 0x0F) <;>
      cases hrb : reg_from_nibble ((op >>> 4) &&& 0xF) <;>
      simp [documented, h24]
  rw [if_neg h24]
  by_cases h25 : op &&& 0xF0FF = 0xE0A1
  · rw [if_pos h25]
    cases hra : reg_from_nibble ((op >>> 8) &&& 0x0F) <;>
      cases hrb : reg_from_nibble ((op >>> 4) &&& 0xF) <;>
      simp [documented, h25]
  rw [if_neg h25]
  by_cases h26 : op &&& 0xF0FF = 0xF007
  · rw [if_pos h26]
    cases hra : reg_from_nibble ((op >>> 8) &&& 0x0F) <;>
      cases hrb : reg_from_nibble ((op >>> 4) &&& 0xF) <;>
      simp [documented, h26]
  rw [if_neg h26]
  by_cases h27 : op &&& 0xF0FF = 0xF00A
  · rw [if_pos h27]
    cases hra : reg_from_nibble ((op >>> 8) &&& 0x0F) <;>
      cases hrb : reg_from_nibble ((op >>> 4) &&& 0xF) <;>
      simp [documented, h27]
  rw [if_neg h27]
  by_cases h28 : op &&& 0xF0FF = 0xF015
  · rw [if_pos h28]
    cases hra : reg_from_nibble ((op >>> 8) &&& 0x0F) <;>
      cases hrb : reg_from_nibble ((op >>> 4) &&& 0xF) <;>
      simp [documented, h28]
  rw [if_neg h28]
  by_cases h29 : op &&& 0xF0FF = 0xF018
  · rw [if_pos h29]
    cases hra : reg_from_nibble ((op >>> 8) &&& 0x0F) <;>
      cases hrb : reg_from_nibble ((op >>> 4) &&& 0xF) <;>
      simp [documented, h29]
  rw [if_neg h29]
  by_cases h30 : op &&& 0xF0FF = 0xF01E
  · rw [if_pos h30]
    cases hra : reg_from_nibble ((op >>> 8) &&& 0x0F) <;>
      cases hrb : reg_from_nibble ((op >>> 4) &&& 0xF) <;>
      simp [documented, h30]
  rw [if_neg h30]
  by_cases h31 : op &&& 0xF0FF = 0xF029
  · rw [if_pos h31]
    cases hra : reg_from_nibble ((op >>> 8) &&& 0x0F) <;>
      cases hrb : reg_from_nibble ((op >>> 4) &&& 0xF) <;>
      simp [documented, h31]
  rw [if_neg h31]
  by_cases h32 : op &&& 0xF0FF = 0xF033
  · rw [if_pos h32]
    cases hra : reg_from_nibble ((op >>> 8) &&& 0x0F) <;>
      cases hrb : reg_from_nibble ((op >>> 4) &&& 0xF) <;>
      simp [documented, h32]
  rw [if_neg h32]
  by_cases h33 : op &&& 0xF0FF = 0xF055
  · rw [if_pos h33]
    cases hra : reg_from_nibble ((op >>> 8) &&& 0x0F) <;>
      cases hrb : reg_from_nibble ((op >>> 4) &&& 0xF) <;>
      simp [documented, h33]
  rw [if_neg h33]
  by_cases h34 : op &&& 0xF0FF = 0xF065
  · rw [if_pos h34]
    cases hra : reg_from_nibble ((op >>> 8) &&& 0x0F) <;>
      cases hrb : reg_from_nibble ((op >>> 4) &&& 0xF) <;>
      simp [documented, h34]
  rw [if_neg h34]
  simp [documented, h1, h2, h3, h4, h5, h6, h7, h8, h9, h10, h11, h12, h13, h14, h15, h16, h17, h18, h19, h20, h21, h22, h23, h24, h25, h26, h27, h28, h29, h30, h31, h32, h33, h34]

/-- Successful run of the load_rom insertion loop: when the starting index
is within the current vector length, every Vec::insert stays in range, no
panic occurs, and each inserted byte grows the vector by one. -/
theorem insert_all_ok (rom : List Nat) : ∀ (ram : List Nat) (idx : Nat), idx ≤ ram.length →
    ∃ r, insert_all ram rom idx = Outcome.ok r ∧ r.length = ram.length + rom.length := by
  induction rom with
  | nil =>
    intro ram idx h
    exact ⟨ram, rfl, by simp [insert_all]⟩
  | cons b rest ih =>
    intro ram idx h
    have hlen : (ram.insertIdx idx b).length = ram.length + 1 :=
      List.length_insertIdx idx ram h
    obtain ⟨r, hr, hrlen⟩ := ih (ram.insertIdx idx b) (idx + 1) (by rw [hlen]; omega)
    refine ⟨r, ?_, ?_⟩
    · simpa [insert_all, h] using hr
    · rw [hlen] at hrlen
      simp only [List.length_cons]
      omega

/-- Claim C1.  The spec states that every 4-bit register-index value 0
through 15 is accepted by decoding.  The code is wrong: the match inside
Cpu::reg_from_nibble accepts only 0..=9, so the nibbles 10 through 15 are
rejected and any instruction word carrying such a register field fails to
decode (shown here on 0x6A00, a load into register 10, while the
neighbouring 0x6900 decodes fine). -/
theorem reg_from_nibble_rejects_high_indices :
    (∀ n : Nat, n ≤ 9 → reg_from_nibble n = some (Register.V n))
    ∧ reg_from_nibble 10 = none
    ∧ reg_from_nibble 15 = none
    ∧ decode 0x6A00 = Outcome.err Err.cantReadRegFromNibble
    ∧ decode 0x6900 = Outcome.ok (Op.LD (Operand.Register (Register.V 9)) (Operand.Byte 0)) := by
  decide

/-- Claim C2.  Decoding a fetched word is total and deterministic: for
every word the decode match yields exactly one result, an instruction or an
error (never a panic), the unknown-opcode error appears exactly for words
matching none of the documented guard patterns, and the instruction
returned by Cpu::read_instruction depends only on the fetched word, not on
the rest of the machine state. -/
theorem decode_total_deterministic_unknown_iff (w : Nat) (c₁ c₂ : Cpu)
    (h₁ : Mmu.read_word c₁.mmu c₁.pc = Outcome.ok w)
    (h₂ : Mmu.read_word c₂.mmu c₂.pc = Outcome.ok w) :
    ((∃ ins, decode w = Outcome.ok ins) ∨ (∃ e, decode w = Outcome.err e))
    ∧ (decode w = Outcome.err (Err.unknownOp w) ↔ documented w = false)
    ∧ (Cpu.read_instruction c₁).1 = (Cpu.read_instruction c₂).1
    ∧ (Cpu.read_instruction c₁).1 = decode w := by
  refine ⟨?_, (decode_spec w).1, ?_, ?_⟩
  · cases hd : decode w with
    | ok ins => exact Or.inl ⟨ins, rfl⟩
    | err e => exact Or.inr ⟨e, rfl⟩
    | panic => exact absurd hd (decode_spec w).2
  · simp [Cpu.read_instruction, h₁, h₂]
  · simp [Cpu.read_instruction, h₁]

/-- Witness for claim C2 at the concrete word 0x1234, fetched from two
machine states that differ in every component. -/
theorem decode_total_deterministic_unknown_iff_witness :
    ((∃ ins, decode 0x1234 = Outcome.ok ins) ∨ (∃ e, decode 0x1234 = Outcome.err e))
    ∧ (decode 0x1234 = Outcome.err (Err.unknownOp 0x1234) ↔ documented 0x1234 = false)
    ∧ (Cpu.read_instruction cpu_word_a).1 = (Cpu.read_instruction cpu_word_b).1
    ∧ (Cpu.read_instruction cpu_word_a).1 = decode 0x1234 :=
  decode_total_deterministic_unknown_iff 0x1234 cpu_word_a cpu_word_b (by decide) (by decide)

/-- Claim C3.  The spec states the accessors are bounds checked for every
index outside the 4096-byte store.  The code is off by one: the guards use
a strict comparison against the length, so read_byte at index 4096 and
read_word at index 4095 pass the guard and panic on an out-of-bounds Vec
index instead of returning an error; only from 4096 on does read_word
return the error. -/
theorem read_accessors_off_by_one :
    Mmu.read_byte Mmu.new 4096 = Outcome.panic
    ∧ Mmu.read_word Mmu.new 4095 = Outcome.panic
    ∧ Mmu.read_word Mmu.new 4096 = Outcome.err Err.unableToReadWord
    ∧ Mmu.read_byte Mmu.new 4097 = Outcome.err Err.unableToReadByte
    ∧ (Mmu.new).ram.length = 4096 := by
  have hram : (Mmu.new).ram = List.replicate 4096 0 := rfl
  refine ⟨?_, ?_, ?_, ?_, ?_⟩ <;>
    · simp only [Mmu.read_byte, Mmu.read_word, hram, List.length_replicate,
        List.getElem?_replicate]
      try norm_num

/-- Claim C4.  The spec states that images longer than 3584 bytes are a
load-time error and that memory stays a fixed 4096-byte store.  The code
checks the rom length against 4096 instead, and loads it with Vec::insert,
which grows the ram: a 3585-byte image is accepted and leaves a ram of
4096 + 3585 bytes. -/
theorem load_rom_accepts_oversized_image :
    ∃ m2, Mmu.load_rom Mmu.new (List.replicate 3585 0) = Outcome.ok m2
      ∧ m2.ram.length = 4096 + 3585 := by
  have hram : (Mmu.new).ram = List.replicate 4096 0 := rfl
  obtain ⟨r, hr, hlen⟩ :=
    insert_all_ok (List.replicate 3585 0) (Mmu.new).ram 0x200
      (by rw [hram, List.length_replicate]; decide)
  have hsmall : ¬ (List.replicate 3585 (0 : Nat)).length > 4096 := by
    rw [List.length_replicate]; decide
  refine ⟨{ Mmu.new with ram := r }, ?_, ?_⟩
  · simp only [Mmu.load_rom]
    rw [if_neg hsmall, hr]
  · rw [hram, List.length_replicate, List.length_replicate] at hlen
    exact hlen

/-- Claim C5.  The spec states that the height operand of DRAW is the low
nibble (bits 0 to 3) of the word.  The code is wrong: it computes the
height from bits 4 to 7 (the same nibble as the second register operand),
shown here on 0xD012, whose decoded height is 1 while its low nibble is
2.  The two register operands do come from bits 8-11 and 4-7. -/
theorem draw_height_uses_wrong_nibble :
    decode 0xD012 = Outcome.ok (Op.DRAW (Operand.Register (Register.V 0))
      (Operand.Register (Register.V 1)) (Operand.Byte 1))
    ∧ 0xD012 &&& 0xF = 2 := by
  decide

/-- Claim C6.  The spec states register-register ADD wraps at 8 bits and
sets VF on carry, with V0 = 0xFF, V1 = 0x01 giving V0 = 0x00 and VF = 1.
The code never implements the arithmetic arms: the ADD arm of the
execute_instruction match is commented out and falls through to the default
arm, so the whole register file is untouched and only the program counter
advances by 2. -/
theorem add_between_registers_is_unimplemented :
    Cpu.execute_instruction cpu_arith
        (Op.ADD (Operand.Register (Register.V 0)) (Operand.Register (Register.V 1)))
      = Outcome.ok { cpu_arith with pc := 0x202 }
    ∧ cpu_arith.v[0]? = some 0xFF
    ∧ cpu_arith.v[1]? = some 0x01
    ∧ cpu_arith.v[15]? = some 0 := by
  decide

/-- Claim C7.  The spec states the skip family advances the program counter
by 4 when the comparison condition holds.  The code never implements those
arms: all four fall through to the default arm, which always advances the
program counter by 2 and changes nothing else — shown in a state where the
SE condition (V0 equal to the immediate 5) holds. -/
theorem skip_family_never_advances_by_four :
    Cpu.execute_instruction cpu_skip
        (Op.SE (Operand.Register (Register.V 0)) (Operand.Byte 5))
      = Outcome.ok { cpu_skip with pc := 0x202 }
    ∧ Cpu.execute_instruction cpu_skip
        (Op.SNE (Operand.Register (Register.V 0)) (Operand.Byte 6))
      = Outcome.ok { cpu_skip with pc := 0x202 }
    ∧ Cpu.execute_instruction cpu_skip
        (Op.SKIPKEY (Operand.Register (Register.V 0)))
      = Outcome.ok { cpu_skip with pc := 0x202 }
    ∧ Cpu.execute_instruction cpu_skip
        (Op.SKIPNOKEY (Operand.Register (Register.V 0)))
      = Outcome.ok { cpu_skip with pc := 0x202 }
    ∧ cpu_skip.v[0]? = some 5 := by
  decide

/-- Claim C8.  The spec states CALL pushes the program counter and jumps
(faulting on a full stack) and RET pops into the program counter (faulting
on an empty stack).  The code never implements either arm: both fall
through to the default arm, so from pc = 0x200 with an empty stack a CALL
to 0x300 merely advances pc to 0x202 with no push and no jump, and a RET on
the empty stack advances pc instead of faulting. -/
theorem call_and_ret_are_unimplemented :
    Cpu.execute_instruction cpu_flow (Op.CALL (Operand.Addr 0x300))
      = Outcome.ok { cpu_flow with pc := 0x202 }
    ∧ Cpu.execute_instruction cpu_flow Op.RET
      = Outcome.ok { cpu_flow with pc := 0x202 }
    ∧ cpu_flow.stack = []
    ∧ cpu_flow.sp = 0
    ∧ cpu_flow.pc = 0x200 := by
  decide

/-- Claim C9.  The spec states CLS leaves the surface a 64 by 32 grid of
2048 unset pixels and that the surface stays that fixed size.  The code is
wrong: Mmu::clear_vram calls Vec::clear, which removes all elements, so
after CLS the vram has length 0 instead of 2048 (the program counter does
advance by 2 as specified). -/
theorem cls_empties_the_vram :
    Cpu.execute_instruction (Cpu.new Mmu.new) Op.CLS
      = Outcome.ok { Cpu.new Mmu.new with
          mmu := { Mmu.new with vram := [] }, pc := 0x202 }
    ∧ (Mmu.new).vram.length = 2048
    ∧ ({ Mmu.new with vram := ([] : List Nat) }).vram.length = 0 := by
  exact ⟨rfl, List.length_replicate 2048 0, rfl⟩

/-- Claim C10.  Fetch plus decode has no side effect on the machine: for
every state, Cpu::read_instruction leaves the register file, the address
register, the program counter, the stack, the stack pointer, the ram and
the vram unchanged, whatever its result. -/
theorem read_instruction_leaves_state_unchanged (c : Cpu) :
    ((c.read_instruction).2.v = c.v)
    ∧ ((c.read_instruction).2.i = c.i)
    ∧ ((c.read_instruction).2.pc = c.pc)
    ∧ ((c.read_instruction).2.stack = c.stack)
    ∧ ((c.read_instruction).2.sp = c.sp)
    ∧ ((c.read_instruction).2.mmu.ram = c.mmu.ram)
    ∧ ((c.read_instruction).2.mmu.vram = c.mmu.vram) := by
  cases h : Mmu.read_word c.mmu c.pc <;> simp [Cpu.read_instruction, h]

/-- Witness for claim C10 at a concrete machine state. -/
theorem read_instruction_leaves_state_unchanged_witness :
    ((cpu_word_a.read_instruction).2.v = cpu_word_a.v)
    ∧ ((cpu_word_a.read_instruction).2.i = cpu_word_a.i)
    ∧ ((cpu_word_a.read_instruction).2.pc = cpu_word_a.pc)
    ∧ ((cpu_word_a.read_instruction).2.stack = cpu_word_a.stack)
    ∧ ((cpu_word_a.read_instruction).2.sp = cpu_word_a.sp)
    ∧ ((cpu_word_a.read_instruction).2.mmu.ram = cpu_word_a.mmu.ram)
    ∧ ((cpu_word_a.read_instruction).2.mmu.vram = cpu_word_a.mmu.vram) :=
  read_instruction_leaves_state_unchanged cpu_word_a
